import Mathlib

/-!
# Verification of the commitizen git-history layer and JSON version provider

This file embeds the history-model extraction layer (record parsing, tag
listing, commit-command construction, temp-file protocol) and the
`JsonProvider` version rewriting of `commitizen/providers/base_provider.py`,
and proves the specified properties about them.

String splitting and stripping are given explicit structurally recursive
implementations over `List Char` (with the semantics of Python `str.split`
and `str.strip`) so that concrete runs evaluate inside the kernel.
-/

namespace Commitizen

/-- Test whether the list `l` starts with the character sequence `sep`
(Python `str.startswith` on character lists). -/
def startsWithL : List Char → List Char → Bool
  | [], _ => true
  | _ :: _, [] => false
  | a :: as, b :: bs => a == b && startsWithL as bs

/-- Worker for `pySplit`: split `l` at every occurrence of the nonempty
separator `sep`, accumulating the current field in `acc` (reversed).
`fuel` is a structural-recursion token list at least as long as `l`. -/
def splitOnL (sep : List Char) : List Char → List Char → List Char → List (List Char)
  | _, acc, [] => [acc.reverse]
  | [], acc, rest => [acc.reverse ++ rest]
  | _ :: fuel, acc, c :: cs =>
    if startsWithL sep (c :: cs) then
      acc.reverse :: splitOnL sep fuel [] (List.drop sep.length (c :: cs))
    else
      splitOnL sep fuel (c :: acc) cs

/-- Python `s.split(sep)` for a nonempty separator: the list of fields of `s`
between occurrences of `sep`, empty fields included. -/
def pySplit (s sep : String) : List String :=
  if sep.data.isEmpty then [s]
  else (splitOnL sep.data s.data [] s.data).map String.mk

/-- Python `s.strip()`: remove leading and trailing whitespace. -/
def pyStrip (s : String) : String :=
  String.mk (((s.data.dropWhile Char.isWhitespace).reverse.dropWhile Char.isWhitespace).reverse)

/-- Join a list of strings with the separator `sep` between consecutive
elements (Python `sep.join(xs)`). -/
def joinWith (sep : String) : List String → String
  | [] => ""
  | [s] => s
  | s :: rest => s ++ sep ++ joinWith sep rest

/-- Test whether `pat` occurs as a contiguous subsequence of `l`. -/
def hasSubstringL (pat : List Char) : List Char → Bool
  | [] => startsWithL pat []
  | c :: cs => startsWithL pat (c :: cs) || hasSubstringL pat cs

/-- Python `pat in s`: substring containment test. -/
def containsText (s pat : String) : Bool :=
  hasSubstringL pat.data s.data

/-- The separator `sep` occurs nowhere inside `l ++ sep` other than as the
final full occurrence: no scan position strictly inside `l` starts a match.
Every record chunk followed by its separator in raw log output satisfies
this — in particular a chunk whose last body line runs directly into the
separator, since the separator text cannot begin inside the chunk. -/
def sepOnlyAtEnd (sep l : List Char) : Prop :=
  ∀ i, i < l.length → startsWithL sep (List.drop i (l ++ sep)) = false

instance (sep l : List Char) : Decidable (sepOnlyAtEnd sep l) :=
  inferInstanceAs
    (Decidable (∀ i, i < l.length → startsWithL sep (List.drop i (l ++ sep)) = false))

/-- A parsed commit record.
Modelled from the spec: `CommitRecord` of the data model (spec §3) — revision
id, ordered parent ids, title, newline-joined body, author and author email
(both defaulting to the empty string when the backend omits them). -/
structure GitCommit where
  rev : String
  title : String
  body : String
  author : String
  author_email : String
  parents : List String
deriving DecidableEq

/-- A parsed tag record.
Modelled from the spec: `TagRecord` of the data model (spec §3) — tag name,
target revision id, and creation date carried verbatim as a string. -/
structure GitTag where
  name : String
  rev : String
  date : String
deriving DecidableEq

/-- The record separator between commit chunks in raw log output
(spec §4.1/§6: a fixed low-collision literal, an internal protocol detail). -/
def commit_delimiter : String := "----------commit-delimiter----------"

/-- The field separator inside one tag line (spec §4.1: tag listing uses a
distinct separator token and a fields-per-line format). -/
def inner_delimiter : String := "---inner_delimiter---"

/-- The benign backend error sentinel for tag listing (spec §6/§7:
"no tag available" style sentinels are treated as benign-empty). -/
def no_tag_sentinel : String := "No tag available"

/-- Modelled from the spec: the History Record Builder for commits
(spec §4.2, `GitCommit.from_rev_and_commit` of the missing
`commitizen/git.py`). The chunk's lines are, in fixed positions: revision id,
space-separated parent ids, title, author, author email, and the remaining
lines are the body, newline-joined. Missing lines default to the empty string
(a missing title or author never raises), empty parent tokens are dropped,
and revision, title and body are stripped at their boundaries. -/
def GitCommit.from_rev_and_commit (rev_and_commit : String) : GitCommit :=
  let lines := pySplit rev_and_commit "\n"
  { rev := pyStrip (lines.getD 0 "")
    title := pyStrip (lines.getD 2 "")
    body := pyStrip (joinWith "\n" (lines.drop 5))
    author := lines.getD 3 ""
    author_email := lines.getD 4 ""
    parents := (pySplit (pyStrip (lines.getD 1 "")) " ").filter (fun p => p != "") }

/-- Modelled from the spec: the Raw Output Parser + Record Builder pass over
one log invocation's stdout (`get_commits` of the missing
`commitizen/git.py`). The output is cut at every occurrence of the record
delimiter followed by a newline — so a last body line that runs directly into
the delimiter (no trailing newline before it, spec §4.2's observed failure
mode) is cut right before the delimiter token, stripping it from the body
rather than keeping it as content. Empty chunks are skipped. -/
def get_commits (out : String) : List GitCommit :=
  ((pySplit out (commit_delimiter ++ "\n")).filter (fun chunk => chunk != "")).map
    GitCommit.from_rev_and_commit

/-- Modelled from the spec: one tag line parsed into a `TagRecord`
(spec §4.1: `name | revisionId | date` fields separated by the inner
delimiter; a fourth field carries the peeled object of an annotated tag and,
when nonempty, replaces the revision). -/
def GitTag.from_line (line : String) : GitTag :=
  let fields := pySplit line inner_delimiter
  let objectname := fields.getD 1 ""
  let obj := fields.getD 3 ""
  { name := fields.getD 0 ""
    rev := if obj = "" then objectname else obj
    date := fields.getD 2 "" }

/-- Modelled from the spec: `listTags` (spec §4.3) applied to one backend
invocation's `(stdout, stderr)`. A stderr matching the known benign sentinel
yields the empty list — never an error; any other nonempty stderr is a hard
failure carrying the raw stderr text verbatim (spec §7, `GitCommandError`);
otherwise each output line but the trailing empty one becomes a tag record. -/
def get_tags (out err : String) : Except String (List GitTag) :=
  if containsText err no_tag_sentinel then .ok []
  else if err != "" then .error err
  else .ok (((pySplit out "\n").dropLast).map GitTag.from_line)

/-- Modelled from the spec: the name-only tag listing (`get_tag_names` of the
missing `commitizen/git.py`), with the same benign-sentinel/hard-failure
classification as `get_tags`; output lines are stripped and empty ones
dropped. -/
def get_tag_names (out err : String) : Except String (List String) :=
  if containsText err no_tag_sentinel then .ok []
  else if err != "" then .error err
  else .ok (((pySplit out "\n").map pyStrip).filter (fun t => t != ""))

/-- Modelled from the spec: the read of filenames touched by a commit
(`get_filenames_in_commit` of the missing `commitizen/git.py`). A zero exit
code yields the stripped output lines; a nonzero exit code is a hard failure
carrying the backend's raw stderr text verbatim (spec §7). -/
def get_filenames_in_commit (out err : String) (return_code : Nat) : Except String (List String) :=
  if return_code = 0 then .ok (pySplit (pyStrip out) "\n") else .error err

/-- The platform family a command string is built for (spec §4.4/§9:
platform-conditional command construction selected by an enumerated
platform tag). `nt` is the family lacking native inline env-assignment. -/
inductive OsName where
  | nt
  | posix
deriving DecidableEq

/-- Modelled from the spec: the commit command-line builder
(`_create_commit_cmd_string` of the missing `commitizen/git.py`, spec §4.4).
The base command double-quotes the temp-file path unconditionally and places
the extra args verbatim between the base command and the `-F` message-file
flag; a committer date, when present, is injected with the platform's
environment-assignment syntax: a `cmd /v /c "set VAR=value&& ..."` wrapper
on `nt`, the direct inline `VAR=value ...` form on `posix`. -/
def _create_commit_cmd_string (args : String) (committer_date : Option String)
    (name : String) (os : OsName) : String :=
  let command := "git commit " ++ args ++ " -F \"" ++ name ++ "\""
  match committer_date with
  | none => command
  | some date =>
    match os with
    | .posix => "GIT_COMMITTER_DATE=" ++ date ++ " " ++ command
    | .nt => "cmd /v /c \"set GIT_COMMITTER_DATE=" ++ date ++ "&& " ++ command ++ "\""

/-- One observable effect of the commit-creation operation: writing the
temporary message file, running the backend command, or unlinking a file. -/
inductive GitOpEvent where
  | write_temp (path content : String)
  | run (command : String)
  | unlink (path : String)
deriving DecidableEq

/-- Is the event an unlink of some path? -/
def is_unlink_event : GitOpEvent → Bool
  | .unlink _ => true
  | _ => false

/-- Is the event a backend command invocation? -/
def is_run_event : GitOpEvent → Bool
  | .run _ => true
  | _ => false

/-- Modelled from the spec: `createCommit` (`commit` of the missing
`commitizen/git.py`, spec §4.4). The message is written to a fresh temporary
file, the built command is run once, and the temp file is unlinked once after
the backend invocation returns — on the success path and on the failure path
alike; there is no retry, and the backend's success flag is surfaced to the
caller unchanged. The returned trace lists the operation's effects in
order. -/
def commit (message args : String) (committer_date : Option String)
    (temp_path : String) (os : OsName) (backend_ok : Bool) : List GitOpEvent × Bool :=
  let command := _create_commit_cmd_string args committer_date temp_path os
  ([.write_temp temp_path message, .run command, .unlink temp_path], backend_ok)

/-- A Python runtime value a history object can be compared against: another
history object (commit or tag) or a plain string. -/
inductive PyValue where
  | commit_obj (c : GitCommit)
  | tag_obj (t : GitTag)
  | str_obj (s : String)

/-- The `rev` attribute of a runtime value, when it has one: history objects
expose their revision id, a plain string has no such attribute. -/
def revAttr : PyValue → Option String
  | .commit_obj c => some c.rev
  | .tag_obj t => some t.rev
  | .str_obj _ => none

/-- Modelled from the spec: the shared equality contract of history objects
(spec §3/§9): two values compare equal exactly when both carry a revision id
and the ids match, regardless of concrete type; a value without a `rev`
attribute never compares equal. -/
def pyEq (self other : PyValue) : Bool :=
  match revAttr self, revAttr other with
  | some r1, some r2 => r1 == r2
  | _, _ => false

/-- Modelled from the spec and tests: Python attribute assignment on a tag
record (`tag.date = d`, observed in `test_git_tag_date`), as a functional
update producing the record state after the assignment. -/
def GitTag.setDate (t : GitTag) (d : String) : GitTag :=
  { t with date := d }

/-! ## JSON version provider (`commitizen/providers/base_provider.py`) -/

/-- A JSON value, as produced by `json.loads`. -/
inductive JsonValue where
  | null
  | bool (b : Bool)
  | num (n : Int)
  | str (s : String)
  | arr (elems : List JsonValue)
  | obj (fields : List (String × JsonValue))

/-- A top-level JSON document: the key-value entries of the parsed object,
in file order, keys unique as `json.loads` yields a `dict`. -/
def JsonDocument := List (String × JsonValue)

/-- Python `dict` lookup `document[k]`: the value at the first matching key,
if any. -/
def dictGet : JsonDocument → String → Option JsonValue
  | [], _ => none
  | (k2, v2) :: rest, k => if k2 = k then some v2 else dictGet rest k

/-- Python `dict` assignment `document[k] = v`: replaces the value at an
existing key in place, keeping its position, or appends a new entry. -/
def dictSet : JsonDocument → String → JsonValue → JsonDocument
  | [], k, v => [(k, v)]
  | (k2, v2) :: rest, k, v =>
    if k2 = k then (k, v) :: rest else (k2, v2) :: dictSet rest k v

/-- Shallow embedding of `JsonProvider.get` (base_provider.py lines 67-68):
`return document["version"]`. -/
def JsonProvider.get (document : JsonDocument) : Option JsonValue :=
  dictGet document "version"

/-- Shallow embedding of `JsonProvider.set` (base_provider.py lines 70-71):
`document["version"] = version`. -/
def JsonProvider.set (document : JsonDocument) (version : String) : JsonDocument :=
  dictSet document "version" (.str version)

/-- Shallow embedding of `JsonProvider.get_version` (base_provider.py lines 58-60): parse the
provider's file and read its top-level version key. The file is represented
by the document it parses to, `json.loads`/`json.dumps` serialization being
the identity on documents. -/
def JsonProvider.get_version (file_document : JsonDocument) : Option JsonValue :=
  JsonProvider.get file_document

/-- Shallow embedding of `JsonProvider.set_version` (base_provider.py lines 62-65): parse the
provider's file, set the top-level version key, and write the rewritten
document back. -/
def JsonProvider.set_version (file_document : JsonDocument) (version : String) : JsonDocument :=
  JsonProvider.set file_document version

/-- The raw log output of `test_get_commits_without_email`: two records whose
author-email lines are empty, the first also with an empty title line. -/
def raw_missing_email : String :=
  "a515bb8f71c403f6f7d1c17b9d8ebf2ce3959395\n" ++
  "95bbfc703eb99cb49ba0d6ffd8469911303dbe63 12d3b4bdaa996ea7067a07660bb5df4772297bdd\n" ++
  "\n" ++
  "user name\n" ++
  "\n" ++
  "----------commit-delimiter----------\n" ++
  "12d3b4bdaa996ea7067a07660bb5df4772297bdd\n" ++
  "de33bc5070de19600f2f00262b3c15efea762408\n" ++
  "feat(users): add username\n" ++
  "user name\n" ++
  "\n" ++
  "----------commit-delimiter----------\n"

/-- The raw log output of `test_get_commits_without_breakline_in_each_commit`:
the second record's body line runs directly into the next delimiter with no
newline between them. -/
def raw_no_breakline : String :=
  "ae9ba6fc5526cf478f52ef901418d85505109744\n" ++
  "ff2f56ca844de72a9d59590831087bf5a97bac84\n" ++
  "bump: version 2.13.0 → 2.14.0\n" ++
  "GitHub Action\n" ++
  "action@github.com\n" ++
  "----------commit-delimiter----------\n" ++
  "ff2f56ca844de72a9d59590831087bf5a97bac84\n" ++
  "b4dc83284dc8c9729032a774a037df1d1f2397d5 20a54bf1b82cd7b573351db4d1e8814dd0be205d\n" ++
  "Merge pull request #332 from cliles/feature/271-redux\n" ++
  "User\n" ++
  "user@email.com\n" ++
  "Feature/271 redux----------commit-delimiter----------\n" ++
  "20a54bf1b82cd7b573351db4d1e8814dd0be205d\n" ++
  "658f38c3fe832cdab63ed4fb1f7b3a0969a583be\n" ++
  "feat(#271): enable creation of annotated tags when bumping\n" ++
  "User 2\n" ++
  "user@email.edu\n" ++
  "----------commit-delimiter----------\n"

/-- The `parents` field of the record builder, unfolded: the nonempty
space-separated tokens of the chunk's second line, stripped. -/
theorem from_rev_and_commit_parents (chunk : String) :
    (GitCommit.from_rev_and_commit chunk).parents
      = (pySplit (pyStrip ((pySplit chunk "\n").getD 1 "")) " ").filter (fun p => p != "") :=
  rfl

/-- C1: on a tag-listing read whose backend stderr signals the benign
"no tag available" sentinel, `get_tags` and `get_tag_names` return the empty
list and raise no error; on any other nonempty backend stderr the read raises
the history command error carrying exactly the backend's raw stderr text, as
does `get_filenames_in_commit` on a nonzero exit code. -/
theorem tag_listing_error_classification (out err : String) (return_code : Nat) :
    (containsText err no_tag_sentinel = true →
      get_tags out err = .ok [] ∧ get_tag_names out err = .ok []) ∧
    (containsText err no_tag_sentinel = false → err ≠ "" →
      get_tags out err = .error err ∧ get_tag_names out err = .error err) ∧
    (return_code ≠ 0 → get_filenames_in_commit out err return_code = .error err) := by
  refine ⟨fun h => ?_, fun h1 h2 => ?_, fun h3 => ?_⟩
  · simp [get_tags, get_tag_names, h]
  · simp [get_tags, get_tag_names, h1, h2]
  · simp [get_filenames_in_commit, h3]

/-- Witness for C1 at the backend outputs of `test_get_tags`,
`test_get_tag_names` and `test_get_filenames_in_commit_error`. -/
theorem tag_listing_error_classification_witness :
    get_tags "" "No tag available" = .ok [] ∧
    get_tag_names "" "No tag available" = .ok [] ∧
    get_tags "" "fatal: bad object HEAD" = .error "fatal: bad object HEAD" ∧
    get_tag_names "" "fatal: bad object HEAD" = .error "fatal: bad object HEAD" ∧
    get_filenames_in_commit "" "fatal: bad object HEAD" 1 = .error "fatal: bad object HEAD" := by
  refine ⟨?_, ?_, ?_, ?_, ?_⟩
  · exact ((tag_listing_error_classification "" "No tag available" 1).1 (by decide)).1
  · exact ((tag_listing_error_classification "" "No tag available" 1).1 (by decide)).2
  · exact ((tag_listing_error_classification "" "fatal: bad object HEAD" 1).2.1
      (by decide) (by decide)).1
  · exact ((tag_listing_error_classification "" "fatal: bad object HEAD" 1).2.1
      (by decide) (by decide)).2
  · exact (tag_listing_error_classification "" "fatal: bad object HEAD" 1).2.2 (by decide)

/-- C2: an empty parent-id line yields an empty parents list, and a parent-id
line of space-separated nonempty tokens yields exactly those tokens in the
backend-reported left-to-right order. -/
theorem parents_preserve_backend_order (chunk pl : String)
    (hline : (pySplit chunk "\n").getD 1 "" = pl) :
    (pl = "" → (GitCommit.from_rev_and_commit chunk).parents = []) ∧
    (pyStrip pl = pl → (∀ t ∈ pySplit pl " ", t ≠ "") →
      (GitCommit.from_rev_and_commit chunk).parents = pySplit pl " ") := by
  constructor
  · intro h
    rw [from_rev_and_commit_parents, hline, h]
    rfl
  · intro hs hne
    rw [from_rev_and_commit_parents, hline, hs]
    exact List.filter_eq_self.mpr fun a ha => by simpa using hne a ha

/-- Witness for C2 at the chunks of `test_git_commit_from_rev_and_commit`:
the raw parent line "def456 ghi789" yields exactly ["def456", "ghi789"], and
the empty parent line yields []. -/
theorem parents_preserve_backend_order_witness :
    (GitCommit.from_rev_and_commit
      ("abc123\n" ++ "def456 ghi789\n" ++ "feat: add new feature\n" ++ "John Doe\n" ++
       "john@example.com\n" ++ "This is a detailed description\n" ++ "of the new feature\n" ++
       "with multiple lines")).parents = ["def456", "ghi789"] ∧
    (GitCommit.from_rev_and_commit
      ("abc123\n" ++ "\n" ++ "feat: minimal commit\n" ++ "John Doe\n" ++
       "john@example.com\n")).parents = [] := by
  constructor
  · exact ((parents_preserve_backend_order
      ("abc123\n" ++ "def456 ghi789\n" ++ "feat: add new feature\n" ++ "John Doe\n" ++
       "john@example.com\n" ++ "This is a detailed description\n" ++ "of the new feature\n" ++
       "with multiple lines") "def456 ghi789" (by decide)).2 (by decide) (by decide)).trans
      (by decide)
  · exact (parents_preserve_backend_order
      ("abc123\n" ++ "\n" ++ "feat: minimal commit\n" ++ "John Doe\n" ++ "john@example.com\n")
      "" (by decide)).1 rfl

/-- C3: a chunk whose author or author-email line is absent still builds a
record, with the missing author and author-email defaulting to the empty
string; a missing or empty title line defaults the title to the empty string;
and on the raw output of `test_get_commits_without_email` (fields shifted by
the absent email) the builder produces both records with author "user name",
empty author-email, and the expected titles. -/
theorem missing_author_defaults (chunk : String) :
    ((pySplit chunk "\n").length ≤ 3 → (GitCommit.from_rev_and_commit chunk).author = "") ∧
    ((pySplit chunk "\n").length ≤ 4 →
      (GitCommit.from_rev_and_commit chunk).author_email = "") ∧
    ((pySplit chunk "\n").length ≤ 2 → (GitCommit.from_rev_and_commit chunk).title = "") ∧
    ((pySplit chunk "\n").getD 2 "" = "" → (GitCommit.from_rev_and_commit chunk).title = "") ∧
    ((get_commits raw_missing_email).map (fun c => (c.author, c.author_email, c.title))
      = [("user name", "", ""), ("user name", "", "feat(users): add username")]) := by
  refine ⟨fun h => ?_, fun h => ?_, fun h => ?_, fun h => ?_, by decide⟩
  · exact List.getD_eq_default _ _ h
  · exact List.getD_eq_default _ _ h
  · show pyStrip ((pySplit chunk "\n").getD 2 "") = ""
    rw [List.getD_eq_default _ _ (le_trans h (by omega))]
    rfl
  · show pyStrip ((pySplit chunk "\n").getD 2 "") = ""
    rw [h]
    rfl

/-- Witness for C3 at a one-line chunk (every later line absent). -/
theorem missing_author_defaults_witness :
    (GitCommit.from_rev_and_commit "abc123").author = "" ∧
    (GitCommit.from_rev_and_commit "abc123").author_email = "" ∧
    (GitCommit.from_rev_and_commit "abc123").title = "" := by
  refine ⟨?_, ?_, ?_⟩
  · exact (missing_author_defaults "abc123").1 (by decide)
  · exact (missing_author_defaults "abc123").2.1 (by decide)
  · exact (missing_author_defaults "abc123").2.2.1 (by decide)

/-- Rebuilding a string from its character data is the identity. -/
theorem string_mk_data (s : String) : String.mk s.data = s := rfl

/-- A list starts with itself, whatever follows. -/
theorem startsWithL_self_append (l x : List Char) : startsWithL l (l ++ x) = true := by
  induction l with
  | nil => rfl
  | cons a as ih => simp [startsWithL, ih]

/-- Whether a list starts with `sep` only depends on its first
`sep.length` characters. -/
theorem startsWithL_append_right (sep xs ys : List Char) (h : sep.length ≤ xs.length) :
    startsWithL sep (xs ++ ys) = startsWithL sep xs := by
  induction sep generalizing xs with
  | nil => rfl
  | cons s sep2 ih =>
    cases xs with
    | nil => simp at h
    | cons x xs2 =>
      show (s == x && startsWithL sep2 (xs2 ++ ys)) = (s == x && startsWithL sep2 xs2)
      rw [ih xs2 (by simp only [List.length_cons] at h; omega)]

/-- Scan step of `splitOnL` at a position where the separator matches. -/
theorem splitOnL_cons_pos (sep : List Char) (f c : Char) (fuel acc cs : List Char)
    (h : startsWithL sep (c :: cs) = true) :
    splitOnL sep (f :: fuel) acc (c :: cs)
      = acc.reverse :: splitOnL sep fuel [] (List.drop sep.length (c :: cs)) := by
  simp [splitOnL, h]

/-- Scan step of `splitOnL` at a position where the separator does not
match. -/
theorem splitOnL_cons_neg (sep : List Char) (f c : Char) (fuel acc cs : List Char)
    (h : startsWithL sep (c :: cs) = false) :
    splitOnL sep (f :: fuel) acc (c :: cs) = splitOnL sep fuel (c :: acc) cs := by
  simp [splitOnL, h]

/-- The result of `splitOnL` does not depend on the fuel list, as long as the
fuel is at least as long as the scanned list. -/
theorem splitOnL_fuel_irrelevant (sep : List Char) (hsep : sep ≠ []) :
    ∀ (fuel1 fuel2 acc l : List Char),
      l.length ≤ fuel1.length → l.length ≤ fuel2.length →
      splitOnL sep fuel1 acc l = splitOnL sep fuel2 acc l := by
  intro fuel1
  induction fuel1 with
  | nil =>
    intro fuel2 acc l h1 h2
    have hl : l = [] := List.eq_nil_of_length_eq_zero (Nat.le_zero.mp (by simpa using h1))
    subst hl
    cases fuel2 <;> rfl
  | cons f fuel1 ih =>
    intro fuel2 acc l h1 h2
    cases l with
    | nil => cases fuel2 <;> rfl
    | cons c cs =>
      cases fuel2 with
      | nil => simp at h2
      | cons g fuel2 =>
        have h1c : cs.length ≤ fuel1.length := by
          simp only [List.length_cons] at h1; omega
        have h2c : cs.length ≤ fuel2.length := by
          simp only [List.length_cons] at h2; omega
        have hdrop : (List.drop sep.length (c :: cs)).length ≤ cs.length := by
          have hp : 0 < sep.length := List.length_pos.mpr hsep
          simp only [List.length_drop, List.length_cons]
          omega
        by_cases hsw : startsWithL sep (c :: cs)
        · rw [splitOnL_cons_pos sep f c fuel1 acc cs hsw,
            splitOnL_cons_pos sep g c fuel2 acc cs hsw,
            ih fuel2 [] _ (hdrop.trans h1c) (hdrop.trans h2c)]
        · simp only [Bool.not_eq_true] at hsw
          rw [splitOnL_cons_neg sep f c fuel1 acc cs hsw,
            splitOnL_cons_neg sep g c fuel2 acc cs hsw]
          exact ih fuel2 (c :: acc) cs h1c h2c

/-- Scanning `l ++ sep ++ rest` with no separator match starting inside `l`
cuts exactly at the separator: the field before it is `l` — the trailing
separator occurrence is stripped, not kept as content — and scanning resumes
on `rest` alone. -/
theorem splitOnL_append_sep (sep : List Char) (hsep : sep ≠ []) :
    ∀ (l fuel acc rest : List Char),
      (l ++ sep ++ rest).length ≤ fuel.length →
      sepOnlyAtEnd sep l →
      splitOnL sep fuel acc (l ++ sep ++ rest)
        = (acc.reverse ++ l) :: splitOnL sep rest [] rest := by
  intro l
  induction l with
  | nil =>
    intro fuel acc rest hfuel _
    cases hseq : sep with
    | nil => exact absurd hseq hsep
    | cons s sep2 =>
      subst hseq
      cases fuel with
      | nil => simp at hfuel
      | cons f fuel =>
        have heq : ([] : List Char) ++ (s :: sep2) ++ rest = s :: (sep2 ++ rest) := by simp
        rw [heq, splitOnL_cons_pos (s :: sep2) f s fuel acc (sep2 ++ rest)
          (by simpa using startsWithL_self_append (s :: sep2) rest)]
        have hdrop : List.drop (s :: sep2).length (s :: (sep2 ++ rest)) = rest := by
          simp
        have hlen : rest.length ≤ fuel.length := by
          simp only [List.nil_append, List.length_append, List.length_cons] at hfuel
          omega
        rw [hdrop, splitOnL_fuel_irrelevant (s :: sep2) hsep fuel rest [] rest hlen (le_refl _)]
        simp
  | cons c cs ih =>
    intro fuel acc rest hfuel hfree
    cases fuel with
    | nil => simp at hfuel
    | cons f fuel =>
      have h0x : startsWithL sep (c :: (cs ++ sep ++ rest)) = false := by
        have h0 : startsWithL sep ((c :: cs) ++ sep) = false := by
          simpa using hfree 0 (by simp)
        have ht := startsWithL_append_right sep ((c :: cs) ++ sep) rest
          (by simp only [List.length_append, List.length_cons]; omega)
        have h2 : startsWithL sep (((c :: cs) ++ sep) ++ rest) = false := ht.trans h0
        have ha : ((c :: cs) ++ sep) ++ rest = c :: (cs ++ sep ++ rest) := by simp
        rwa [ha] at h2
      have heq : (c :: cs) ++ sep ++ rest = c :: (cs ++ sep ++ rest) := by simp
      have hlen2 : (cs ++ sep ++ rest).length ≤ fuel.length := by
        simp only [List.length_append, List.length_cons] at hfuel ⊢
        omega
      have hfree2 : sepOnlyAtEnd sep cs := by
        intro i hi
        have hx := hfree (i + 1) (by simp only [List.length_cons]; omega)
        simpa using hx
      rw [heq, splitOnL_cons_neg sep f c fuel acc (cs ++ sep ++ rest) h0x,
        ih fuel (c :: acc) rest hlen2 hfree2]
      simp [List.append_assoc]

/-- Splitting a raw output of the form `chunk ++ sep ++ rest`, where the
separator starts nowhere inside `chunk` — even when `chunk`'s last line runs
directly into the separator — yields the field `chunk` with the trailing
separator stripped, followed by the fields of `rest`. -/
theorem pySplit_append_sep (chunk rest sep : String) (hsep : sep.data ≠ [])
    (hfree : sepOnlyAtEnd sep.data chunk.data) :
    pySplit (chunk ++ sep ++ rest) sep = chunk :: pySplit rest sep := by
  have hne : sep.data.isEmpty = false := by
    cases hd : sep.data with
    | nil => exact absurd hd hsep
    | cons a l => rfl
  rw [show pySplit (chunk ++ sep ++ rest) sep
        = (splitOnL sep.data (chunk ++ sep ++ rest).data [] (chunk ++ sep ++ rest).data).map
            String.mk
      from by simp [pySplit, hne],
    show pySplit rest sep = (splitOnL sep.data rest.data [] rest.data).map String.mk
      from by simp [pySplit, hne]]
  have hdata : (chunk ++ sep ++ rest).data = chunk.data ++ sep.data ++ rest.data := by
    rw [String.data_append, String.data_append]
  rw [hdata, splitOnL_append_sep sep.data hsep chunk.data
    (chunk.data ++ sep.data ++ rest.data) [] rest.data (le_refl _) hfree]
  simp [string_mk_data]

set_option maxRecDepth 100000 in
/-- C4: for every raw log output in which a nonempty record chunk runs
directly into the next record's delimiter — formally, for every `chunk` in
which the delimiter-plus-newline separator starts nowhere, followed by the
separator and then the remaining output `rest` — the parser strips the
trailing separator occurrence from the chunk, builds the chunk's record from
its text without the delimiter, and still produces all records of `rest`;
in particular, on the raw output of
`test_get_commits_without_breakline_in_each_commit`, where the second
record's last body line runs directly into the delimiter, all three records
are produced with their correct fields, the run-in body being exactly
"Feature/271 redux", and no produced body contains the delimiter token. -/
theorem body_strips_trailing_delimiter (chunk rest : String) (hchunk : chunk ≠ "")
    (hfree : sepOnlyAtEnd (commit_delimiter ++ "\n").data chunk.data) :
    (get_commits (chunk ++ (commit_delimiter ++ "\n") ++ rest)
      = GitCommit.from_rev_and_commit chunk :: get_commits rest) ∧
    (get_commits raw_no_breakline
      = [{ rev := "ae9ba6fc5526cf478f52ef901418d85505109744",
           title := "bump: version 2.13.0 → 2.14.0", body := "",
           author := "GitHub Action", author_email := "action@github.com",
           parents := ["ff2f56ca844de72a9d59590831087bf5a97bac84"] },
         { rev := "ff2f56ca844de72a9d59590831087bf5a97bac84",
           title := "Merge pull request #332 from cliles/feature/271-redux",
           body := "Feature/271 redux",
           author := "User", author_email := "user@email.com",
           parents := ["b4dc83284dc8c9729032a774a037df1d1f2397d5",
                       "20a54bf1b82cd7b573351db4d1e8814dd0be205d"] },
         { rev := "20a54bf1b82cd7b573351db4d1e8814dd0be205d",
           title := "feat(#271): enable creation of annotated tags when bumping",
           body := "",
           author := "User 2", author_email := "user@email.edu",
           parents := ["658f38c3fe832cdab63ed4fb1f7b3a0969a583be"] }]) ∧
    ((get_commits raw_no_breakline).all
      (fun c => !(containsText c.body commit_delimiter)) = true) := by
  refine ⟨?_, by decide, by decide⟩
  have hkey := pySplit_append_sep chunk rest (commit_delimiter ++ "\n") (by decide) hfree
  simp only [get_commits, hkey, List.filter_cons]
  have hne2 : (chunk != "") = true := by simpa using hchunk
  simp [hne2]

set_option maxRecDepth 100000 in
/-- Witness for C4 at the run-in record of
`test_get_commits_without_breakline_in_each_commit`: its chunk, whose last
body line "Feature/271 redux" runs directly into the delimiter, yields its
record built from the text without the delimiter, followed by the records of
the remaining output. -/
theorem body_strips_trailing_delimiter_witness :
    get_commits
        (("ff2f56ca844de72a9d59590831087bf5a97bac84\n" ++
          "b4dc83284dc8c9729032a774a037df1d1f2397d5 20a54bf1b82cd7b573351db4d1e8814dd0be205d\n" ++
          "Merge pull request #332 from cliles/feature/271-redux\n" ++
          "User\n" ++
          "user@email.com\n" ++
          "Feature/271 redux") ++
         (commit_delimiter ++ "\n") ++
         ("20a54bf1b82cd7b573351db4d1e8814dd0be205d\n" ++
          "658f38c3fe832cdab63ed4fb1f7b3a0969a583be\n" ++
          "feat(#271): enable creation of annotated tags when bumping\n" ++
          "User 2\n" ++
          "user@email.edu\n" ++
          "----------commit-delimiter----------\n"))
      = GitCommit.from_rev_and_commit
          ("ff2f56ca844de72a9d59590831087bf5a97bac84\n" ++
           "b4dc83284dc8c9729032a774a037df1d1f2397d5 20a54bf1b82cd7b573351db4d1e8814dd0be205d\n" ++
           "Merge pull request #332 from cliles/feature/271-redux\n" ++
           "User\n" ++
           "user@email.com\n" ++
           "Feature/271 redux")
        :: get_commits
          ("20a54bf1b82cd7b573351db4d1e8814dd0be205d\n" ++
           "658f38c3fe832cdab63ed4fb1f7b3a0969a583be\n" ++
           "feat(#271): enable creation of annotated tags when bumping\n" ++
           "User 2\n" ++
           "user@email.edu\n" ++
           "----------commit-delimiter----------\n") :=
  (body_strips_trailing_delimiter
    ("ff2f56ca844de72a9d59590831087bf5a97bac84\n" ++
     "b4dc83284dc8c9729032a774a037df1d1f2397d5 20a54bf1b82cd7b573351db4d1e8814dd0be205d\n" ++
     "Merge pull request #332 from cliles/feature/271-redux\n" ++
     "User\n" ++
     "user@email.com\n" ++
     "Feature/271 redux")
    ("20a54bf1b82cd7b573351db4d1e8814dd0be205d\n" ++
     "658f38c3fe832cdab63ed4fb1f7b3a0969a583be\n" ++
     "feat(#271): enable creation of annotated tags when bumping\n" ++
     "User 2\n" ++
     "user@email.edu\n" ++
     "----------commit-delimiter----------\n")
    (by decide) (by decide)).1

/-- C5: every commit-creation call writes the message to the temp file, runs
the backend command once, and unlinks the temp file exactly once, after the
backend invocation, on the success and the failure path alike; the trace does
not depend on the backend's outcome, and the outcome is surfaced unchanged. -/
theorem commit_unlinks_temp_exactly_once (message args temp_path : String)
    (committer_date : Option String) (os : OsName) (backend_ok : Bool) :
    ((commit message args committer_date temp_path os backend_ok).1
      = [.write_temp temp_path message,
         .run (_create_commit_cmd_string args committer_date temp_path os),
         .unlink temp_path]) ∧
    ((commit message args committer_date temp_path os backend_ok).1.countP
      is_unlink_event = 1) ∧
    ((commit message args committer_date temp_path os backend_ok).1.countP
      is_run_event = 1) ∧
    ((commit message args committer_date temp_path os true).1
      = (commit message args committer_date temp_path os false).1) ∧
    ((commit message args committer_date temp_path os backend_ok).2 = backend_ok) :=
  ⟨rfl, rfl, rfl, rfl, rfl⟩

/-- C6: with a committer date, the `nt` command string wraps the whole
invocation in a `cmd /v /c` execution with an explicit `set` of
GIT_COMMITTER_DATE, while the `posix` command string prefixes the direct
inline assignment to the same git commit command; with no committer date both
platforms build the plain git commit command — e.g. the concrete command
strings of `test_create_commit_cmd_string`. -/
theorem committer_date_platform_syntax (date temp_path : String) :
    (_create_commit_cmd_string "" (some date) temp_path .nt
      = "cmd /v /c \"set GIT_COMMITTER_DATE=" ++ date ++ "&& " ++
        _create_commit_cmd_string "" none temp_path .nt ++ "\"") ∧
    (_create_commit_cmd_string "" (some date) temp_path .posix
      = "GIT_COMMITTER_DATE=" ++ date ++ " " ++
        _create_commit_cmd_string "" none temp_path .posix) ∧
    (_create_commit_cmd_string "" none temp_path .nt
      = _create_commit_cmd_string "" none temp_path .posix) ∧
    (_create_commit_cmd_string "" (some "2024-03-20") "temp.txt" .nt
      = "cmd /v /c \"set GIT_COMMITTER_DATE=2024-03-20&& git commit  -F \"temp.txt\"\"") ∧
    (_create_commit_cmd_string "" (some "2024-03-20") "temp.txt" .posix
      = "GIT_COMMITTER_DATE=2024-03-20 git commit  -F \"temp.txt\"") ∧
    (_create_commit_cmd_string "" none "temp.txt" .nt = "git commit  -F \"temp.txt\"") ∧
    (_create_commit_cmd_string "" none "temp.txt" .posix = "git commit  -F \"temp.txt\"") :=
  ⟨rfl, rfl, rfl, by decide, by decide, by decide, by decide⟩

/-- C7: the commit command line double-quotes the temp-file path
unconditionally — whether or not it contains spaces — and places the extra
args verbatim between the base commit command and the `-F` message-file flag;
in particular path "/tmp/temp file" with extra args "--signoff" yields
exactly the command of `test_commit_with_spaces_in_path`. -/
theorem commit_cmd_quotes_path_and_extra_args (args temp_path : String) (os : OsName) :
    (_create_commit_cmd_string args none temp_path os
      = "git commit " ++ args ++ " -F \"" ++ temp_path ++ "\"") ∧
    (_create_commit_cmd_string "--signoff" none "/tmp/temp file" .posix
      = "git commit --signoff -F \"/tmp/temp file\"") ∧
    (_create_commit_cmd_string "--signoff" none "/tmp dir/temp file" .posix
      = "git commit --signoff -F \"/tmp dir/temp file\"") ∧
    (_create_commit_cmd_string "--signoff" none "/tmp/tempfile" .posix
      = "git commit --signoff -F \"/tmp/tempfile\"") :=
  ⟨rfl, by decide, by decide, by decide⟩

/-- C8: a commit record compares equal to a tag record exactly when their
revision ids match, in either comparison direction, and a commit record never
compares equal to a plain string — even the string equal to its own revision
id. -/
theorem history_object_equality (c : GitCommit) (t : GitTag) (s : String) :
    (pyEq (.commit_obj c) (.tag_obj t) = (c.rev == t.rev)) ∧
    (pyEq (.tag_obj t) (.commit_obj c) = (t.rev == c.rev)) ∧
    (pyEq (.commit_obj c) (.str_obj s) = false) ∧
    (pyEq (.commit_obj c) (.str_obj c.rev) = false) :=
  ⟨rfl, rfl, rfl, rfl⟩

/-- C9 counterexample: a tag record is not immutable after construction — the
date assignment observed in `test_git_tag_date` changes the record built with
date "2025-05-30" into an observably different record with date
"2020-01-21". -/
theorem tag_records_mutable_counterexample :
    (GitTag.setDate { name := "0.0.1", rev := "sha1-code", date := "2025-05-30" }
        "2020-01-21").date = "2020-01-21" ∧
    GitTag.setDate { name := "0.0.1", rev := "sha1-code", date := "2025-05-30" } "2020-01-21"
      ≠ { name := "0.0.1", rev := "sha1-code", date := "2025-05-30" } := by
  constructor
  · rfl
  · decide

/-- C9 amended: records are plain mutable value objects — assigning the date
field of a tag record yields the assigned date, as `test_git_tag_date`
asserts, and leaves every other field (name, revision id) unchanged. -/
theorem set_date_updates_only_date (t : GitTag) (d : String) :
    (t.setDate d).date = d ∧ (t.setDate d).name = t.name ∧ (t.setDate d).rev = t.rev :=
  ⟨rfl, rfl, rfl⟩

/-- Looking up the key just assigned yields the assigned value. -/
theorem dictGet_dictSet_same (document : JsonDocument) (k : String) (v : JsonValue) :
    dictGet (dictSet document k v) k = some v := by
  induction document with
  | nil => simp [dictGet, dictSet]
  | cons e rest ih =>
    obtain ⟨k2, v2⟩ := e
    by_cases h : k2 = k
    · simp [dictGet, dictSet, h]
    · simp [dictGet, dictSet, h, ih]

/-- Looking up any other key is unchanged by the assignment. -/
theorem dictGet_dictSet_other (document : JsonDocument) (k k2 : String) (v : JsonValue)
    (h : k2 ≠ k) : dictGet (dictSet document k v) k2 = dictGet document k2 := by
  induction document with
  | nil => simp [dictGet, dictSet, Ne.symm h]
  | cons e rest ih =>
    obtain ⟨k3, v3⟩ := e
    by_cases h3 : k3 = k
    · subst h3
      simp [dictGet, dictSet, Ne.symm h]
    · simp only [dictSet, if_neg h3, dictGet]
      split
      · rfl
      · exact ih

/-- C10: `JsonProvider.set_version` rewrites the document so that the
top-level "version" key holds exactly the new version while the value of
every other key is preserved unchanged, and a subsequent
`JsonProvider.get_version` on the rewritten document returns the new
version. -/
theorem set_version_rewrites_version_preserving_others
    (document : JsonDocument) (version : String) :
    (JsonProvider.get_version (JsonProvider.set_version document version)
      = some (JsonValue.str version)) ∧
    (dictGet (JsonProvider.set_version document version) "version"
      = some (JsonValue.str version)) ∧
    (∀ k, k ≠ "version" →
      dictGet (JsonProvider.set_version document version) k = dictGet document k) := by
  refine ⟨?_, ?_, fun k hk => ?_⟩
  · exact dictGet_dictSet_same document "version" (JsonValue.str version)
  · exact dictGet_dictSet_same document "version" (JsonValue.str version)
  · exact dictGet_dictSet_other document "version" k (JsonValue.str version) hk

/-- Witness for C10 at a concrete two-key document. -/
theorem set_version_rewrites_version_preserving_others_witness :
    (JsonProvider.get_version
        (JsonProvider.set_version
          [("version", JsonValue.str "1.0.0"), ("description", JsonValue.str "keep")]
          "2.0.0")
      = some (JsonValue.str "2.0.0")) ∧
    (dictGet
        (JsonProvider.set_version
          [("version", JsonValue.str "1.0.0"), ("description", JsonValue.str "keep")]
          "2.0.0")
        "description"
      = dictGet [("version", JsonValue.str "1.0.0"), ("description", JsonValue.str "keep")]
          "description") := by
  constructor
  · exact (set_version_rewrites_version_preserving_others
      [("version", JsonValue.str "1.0.0"), ("description", JsonValue.str "keep")] "2.0.0").1
  · exact (set_version_rewrites_version_preserving_others
      [("version", JsonValue.str "1.0.0"), ("description", JsonValue.str "keep")]
      "2.0.0").2.2 "description" (by decide)

end Commitizen

/-! ## Concrete evaluation checks of the string machinery and, mirroring the
repository's tests, of the parsing layer -/
example : Commitizen.pySplit "a b" " " = ["a", "b"] := by decide
example : Commitizen.pySplit "x\ny\nz" "\n" = ["x", "y", "z"] := by decide
example : Commitizen.pySplit "abDELcdDEL" "DEL" = ["ab", "cd", ""] := by decide
example : Commitizen.pySplit "" "\n" = [""] := by decide
example : Commitizen.pyStrip "  hi there\n" = "hi there" := by decide
example : Commitizen.joinWith "\n" ["a", "b", "c"] = "a\nb\nc" := by rfl
example : Commitizen.containsText "xx No tag available yy" "No tag available" = true := by decide
example : Commitizen.containsText "fatal: bad object HEAD" "No tag available" = false := by decide

-- mirrors test_git_commit_from_rev_and_commit
example :
    Commitizen.GitCommit.from_rev_and_commit
      ("abc123\n" ++ "def456 ghi789\n" ++ "feat: add new feature\n" ++ "John Doe\n" ++
       "john@example.com\n" ++ "This is a detailed description\n" ++ "of the new feature\n" ++
       "with multiple lines")
    = { rev := "abc123", title := "feat: add new feature",
        body := "This is a detailed description\nof the new feature\nwith multiple lines",
        author := "John Doe", author_email := "john@example.com",
        parents := ["def456", "ghi789"] } := by decide

example :
    Commitizen.GitCommit.from_rev_and_commit
      ("abc123\n" ++ "\n" ++ "feat: minimal commit\n" ++ "John Doe\n" ++ "john@example.com\n")
    = { rev := "abc123", title := "feat: minimal commit", body := "",
        author := "John Doe", author_email := "john@example.com", parents := [] } := by decide

-- mirrors test_get_commits_without_email
example :
    (Commitizen.get_commits
      ("a515bb8f71c403f6f7d1c17b9d8ebf2ce3959395\n" ++
       "95bbfc703eb99cb49ba0d6ffd8469911303dbe63 12d3b4bdaa996ea7067a07660bb5df4772297bdd\n" ++
       "\n" ++
       "user name\n" ++
       "\n" ++
       "----------commit-delimiter----------\n" ++
       "12d3b4bdaa996ea7067a07660bb5df4772297bdd\n" ++
       "de33bc5070de19600f2f00262b3c15efea762408\n" ++
       "feat(users): add username\n" ++
       "user name\n" ++
       "\n" ++
       "----------commit-delimiter----------\n")).map
        (fun c => (c.author, c.author_email, c.title))
    = [("user name", "", ""), ("user name", "", "feat(users): add username")] := by decide

-- mirrors test_get_tags, test_get_tag_names, test_get_filenames_in_commit_error
example :
    Commitizen.get_tags
      ("v1.0.0---inner_delimiter---333---inner_delimiter---2020-01-20---inner_delimiter---\n" ++
       "v0.5.0---inner_delimiter---222---inner_delimiter---2020-01-17---inner_delimiter---\n" ++
       "v0.0.1---inner_delimiter---111---inner_delimiter---2020-01-17---inner_delimiter---\n") ""
    = .ok [{ name := "v1.0.0", rev := "333", date := "2020-01-20" },
           { name := "v0.5.0", rev := "222", date := "2020-01-17" },
           { name := "v0.0.1", rev := "111", date := "2020-01-17" }] := by rfl

example : Commitizen.get_tags "" "No tag available" = .ok [] := by rfl
example : Commitizen.get_tag_names "v1.0.0\nv0.5.0\nv0.0.1\n" "" = .ok ["v1.0.0", "v0.5.0", "v0.0.1"] := by rfl
example : Commitizen.get_tag_names "" "No tag available" = .ok [] := by rfl
example : Commitizen.get_filenames_in_commit "" "fatal: bad object HEAD" 1 = .error "fatal: bad object HEAD" := by rfl
